import Mathlib

/-
Verification of the player event emitter
(src/core/server/extensions/playerFunctions/emit.ts).

The emitter is a thin adapter: each exported function validates at most one
precondition (the player's dead state) and forwards one typed event to the
player's client through the host primitive `alt.emitClient`.  We embed each
function as a pure Lean function returning the list of observable effects it
performs (client emits, warning logs, deferred-tick scheduling), together with
the post-call state of any object payload the source may mutate in place
(JavaScript objects are passed by reference; the only property write in the
source is `progressbar.uid = ...`).
-/

/-- Integer 3-vector used for player positions in the spatial query. -/
structure Vec3 where
  x : Int
  y : Int
  z : Int
  deriving DecidableEq

/-- Modelled from the spec: the player's character data (`player.data`, stored
outside src/); the emitter reads only the dead-state flag `isDead`. -/
structure PlayerData where
  isDead : Bool
  deriving DecidableEq

/-- Modelled from the spec: the opaque connected-player handle supplied by the
host runtime, with the session id used to address emits, the position used by
the spatial query, and the character data read by animation/scenario. -/
structure Player where
  id : Nat
  pos : Vec3
  data : PlayerData
  deriving DecidableEq

/-- Event-name constants carried by each outbound emit (SYSTEM_EVENTS,
View_Events_Chat.Append and View_Events_Input_Menu.SetMenu in the source). -/
inductive EventName where
  | PLAYER_EMIT_ANIMATION
  | PLAYER_EMIT_SCENARIO
  | META_SET
  | CHAT_APPEND
  | PLAYER_EMIT_NOTIFICATION
  | PLAY_PARTICLE_EFFECT
  | PROGRESSBAR_CREATE
  | PROGRESSBAR_REMOVE
  | PLAYER_EMIT_SOUND_2D
  | PLAYER_EMIT_SOUND_3D
  | PLAYER_EMIT_FRONTEND_SOUND
  | PLAYER_EMIT_TASK_TIMELINE
  | INPUT_MENU_SET_MENU
  | PLAYER_EMIT_SPINNER
  | PLAYER_EMIT_SPINNER_CLEAR
  | PLAYER_EMIT_ERROR_SCREEN
  | PLAYER_EMIT_ERROR_SCREEN_CLEAR
  deriving DecidableEq

/-- Modelled from the spec: the tagged-union of metadata values accepted by the
meta call (the source takes `any`; the spec enumerates string, number and
boolean payload kinds). -/
inductive MetaValue where
  | str (s : String)
  | num (q : Rat)
  | bool (b : Bool)
  deriving DecidableEq

/-- Modelled from the spec: the particle descriptor payload (interface
Particle, outside src/), forwarded opaquely by the emitter. -/
structure Particle where
  dict : String
  name : String
  duration : Nat
  pos : Vec3
  deriving DecidableEq

/-- Modelled from the spec: the progress-bar descriptor (interface ProgressBar,
outside src/), carrying a lazily-assigned unique identifier `uid` plus opaque
display fields. -/
structure ProgressBar where
  uid : Option String
  text : String
  milliseconds : Nat
  position : Vec3
  deriving DecidableEq

/-- Modelled from the spec: the spinner descriptor (interface ISpinner, outside
src/), forwarded opaquely. -/
structure ISpinner where
  duration : Nat
  text : String
  deriving DecidableEq

/-- Modelled from the spec: the full-screen error descriptor (interface
IErrorScreen, outside src/), forwarded opaquely. -/
structure IErrorScreen where
  title : String
  text : String
  duration : Nat
  deriving DecidableEq

/-- Modelled from the spec: the input-menu descriptor (interface InputMenu,
outside src/), forwarded opaquely. -/
structure InputMenu where
  title : String
  deriving DecidableEq

/-- Modelled from the spec: one timeline step, either a discrete task or a
callback-marked task (Task | TaskCallback, outside src/). -/
inductive TaskItem where
  | task (data : String)
  | callback (name : String)
  deriving DecidableEq

/-- One positional argument of an outbound emit. -/
inductive EmitArg where
  | str (s : String)
  | int (i : Int)
  | rat (q : Rat)
  | particleArg (p : Particle)
  | progressBarArg (pb : ProgressBar)
  | metaValArg (v : MetaValue)
  | spinnerArg (s : ISpinner)
  | errorScreenArg (e : IErrorScreen)
  | inputMenuArg (m : InputMenu)
  | tasksArg (ts : List TaskItem)
  | entityRef (id : Nat)
  deriving DecidableEq

/-- One outbound client emit: target session id, event name, payload args. -/
structure SendRec where
  target : Nat
  ev : EventName
  args : List EmitArg
  deriving DecidableEq

/-- An observable effect of one emitter call: a synchronous client emit, a
warning log, or a batch of emits deferred to the next scheduler tick
(`alt.nextTick`). -/
inductive Effect where
  | emit (s : SendRec)
  | logWarning (msg : String)
  | deferNextTick (deferred : List SendRec)
  deriving DecidableEq

/-- The client emits an effect contributes, whether synchronous or deferred. -/
def sendsOf : Effect → List SendRec
  | Effect.emit s => [s]
  | Effect.logWarning _ => []
  | Effect.deferNextTick ds => ds

/-- Total number of client emits in a trace, deferred ones included. -/
def countSends (tr : List Effect) : Nat :=
  (tr.map sendsOf).flatten.length

/-- The client emits performed synchronously (not deferred) by a trace. -/
def syncSends : List Effect → List SendRec
  | [] => []
  | Effect.emit s :: rest => s :: syncSends rest
  | Effect.logWarning _ :: rest => syncSends rest
  | Effect.deferNextTick _ :: rest => syncSends rest

/-- Number of warning logs in a trace. -/
def warnCount (tr : List Effect) : Nat :=
  (tr.filter (fun e => match e with
    | Effect.logWarning _ => true
    | _ => false)).length

/-- Scheduler view of a trace issued at tick `t`: synchronous emits happen at
tick `t`, emits deferred through `alt.nextTick` at tick `t + 1`. -/
def taggedSends (t : Nat) : List Effect → List (Nat × SendRec)
  | [] => []
  | Effect.emit s :: rest => (t, s) :: taggedSends t rest
  | Effect.logWarning _ :: rest => taggedSends t rest
  | Effect.deferNextTick ds :: rest => ds.map (fun s => (t + 1, s)) ++ taggedSends t rest

/-- Fuel-bounded little-to-big-endian base-10 rendering of a natural number as
decimal characters; `fuel` bounds the recursion depth. -/
def natCharsAux : Nat → Nat → List Char
  | 0, _ => []
  | fuel + 1, n =>
    if n < 10 then [Nat.digitChar n]
    else natCharsAux fuel (n / 10) ++ [Nat.digitChar (n % 10)]

/-- Decimal character rendering of a natural number. -/
def natStrL (n : Nat) : List Char := natCharsAux (n + 1) n

/-- Decode a decimal character rendering back to a natural number. -/
def unnatL (l : List Char) : Nat :=
  l.foldl (fun acc c => acc * 10 + (c.toNat - 48)) 0

/-- Decimal string rendering of an integer. -/
def intStrL (i : Int) : List Char :=
  if i < 0 then '-' :: natStrL i.natAbs else natStrL i.natAbs

/-- Simple 32-bit rolling hash over the characters of a string, standing in for
the content hash used by identifier generation. -/
def hashString (s : String) : Nat :=
  s.data.foldl (fun h c => (h * 31 + c.toNat) % (2 ^ 32)) 7

/-- Modelled from the spec: `sha256Random` (from the encryption utility, not
under src/) derives an identifier from a hash of the payload content combined
with randomness, so repeated identical payloads still get distinct ids.  The
randomness is modelled as an explicit fresh nonce `rand`, rendered after the
content hash so that distinct nonces give distinct identifiers. -/
def sha256Random (content : String) (rand : Nat) : String :=
  String.mk (natStrL (hashString content) ++ '-' :: natStrL rand)

/-- Modelled from the spec: the serialization (`JSON.stringify`) of the full
progress-bar payload content, evaluated before the identifier is assigned. -/
def stringifyProgressBar (pb : ProgressBar) : String :=
  String.mk ((match pb.uid with | none => [] | some u => u.data)
    ++ '|' :: pb.text.data
    ++ '|' :: natStrL pb.milliseconds
    ++ '|' :: intStrL pb.position.x
    ++ ',' :: intStrL pb.position.y
    ++ ',' :: intStrL pb.position.z)

/-- Squared Euclidean distance between two positions. -/
def distSq (a b : Vec3) : Int :=
  (a.x - b.x) * (a.x - b.x) + (a.y - b.y) * (a.y - b.y) + (a.z - b.z) * (a.z - b.z)

/-- Modelled from the spec: `utility.getClosestPlayers` (not under src/)
resolves, from the host's player registry `world`, the set of players within
the fixed radius of the originating player via a read-only spatial query. -/
def getClosestPlayers (world : List Player) (player : Player) (radius : Int) : List Player :=
  world.filter (fun q => distSq q.pos player.pos ≤ radius * radius)

/-- JavaScript truthiness test used by `if (!progressbar.uid)`: an absent uid
and the empty string are both falsy. -/
def strFalsy : Option String → Bool
  | none => true
  | some s => s == ""

/-- Play an animation on this player: skipped with one warning log when the
player is dead, otherwise a single emit forwarding dictionary, name, flags and
duration (defaulting to -1, the play-once sentinel). -/
def animation (player : Player) (dictionary : String) (name : String)
    (flags : Int) (duration : Int := -1) : List Effect :=
  if player.data.isDead then
    [Effect.logWarning ("[Athena] Cannot play " ++ dictionary ++ "@" ++ name
      ++ " while player is dead.")]
  else
    [Effect.emit ⟨player.id, EventName.PLAYER_EMIT_ANIMATION,
      [EmitArg.str dictionary, EmitArg.str name, EmitArg.int flags, EmitArg.int duration]⟩]

/-- Play a scenario on this player: silently skipped when the player is dead,
otherwise a single emit forwarding name and duration. -/
def scenario (player : Player) (name : String) (duration : Int) : List Effect :=
  if player.data.isDead then []
  else
    [Effect.emit ⟨player.id, EventName.PLAYER_EMIT_SCENARIO,
      [EmitArg.str name, EmitArg.int duration]⟩]

/-- Synchronize a key/value pair for this player: the emit is deferred to the
next scheduler tick through `alt.nextTick`, never sent synchronously. -/
def meta (player : Player) (key : String) (value : MetaValue) : List Effect :=
  [Effect.deferNextTick [⟨player.id, EventName.META_SET,
    [EmitArg.str key, EmitArg.metaValArg value]⟩]]

/-- Send a chat message to this player: one unconditional emit. -/
def message (player : Player) (msg : String) : List Effect :=
  [Effect.emit ⟨player.id, EventName.CHAT_APPEND, [EmitArg.str msg]⟩]

/-- Send a notification to this player: one unconditional emit. -/
def notification (player : Player) (msg : String) : List Effect :=
  [Effect.emit ⟨player.id, EventName.PLAYER_EMIT_NOTIFICATION, [EmitArg.str msg]⟩]

/-- Play a particle effect: with the broadcast flag (default false) one emit to
the originating player only; with it set, one emit per player resolved by the
10-unit spatial query, each carrying the identical payload.  Returns the
post-call payload (never mutated) alongside the trace. -/
def particle (player : Player) (world : List Player) (particle : Particle)
    (emitToNearbyPlayers : Bool := false) : Particle × List Effect :=
  if !emitToNearbyPlayers then
    (particle, [Effect.emit ⟨player.id, EventName.PLAY_PARTICLE_EFFECT,
      [EmitArg.particleArg particle]⟩])
  else
    (particle, (getClosestPlayers world player 10).map (fun player =>
      Effect.emit ⟨player.id, EventName.PLAY_PARTICLE_EFFECT,
        [EmitArg.particleArg particle]⟩))

/-- Create a progress bar: when the payload's uid is falsy a fresh identifier
is generated from the serialized payload and the nonce `rand` and written onto
the payload before the emit; the (possibly updated) payload is forwarded and
its uid returned.  Returns the post-call payload, the returned uid and the
trace. -/
def createProgressBar (player : Player) (progressbar : ProgressBar) (rand : Nat) :
    ProgressBar × String × List Effect :=
  let pb :=
    if strFalsy progressbar.uid then
      { progressbar with uid := some (sha256Random (stringifyProgressBar progressbar) rand) }
    else progressbar
  (pb, pb.uid.getD "",
    [Effect.emit ⟨player.id, EventName.PROGRESSBAR_CREATE, [EmitArg.progressBarArg pb]⟩])

/-- Remove a progress bar by its unique identifier: one unconditional emit. -/
def removeProgressBar (player : Player) (uid : String) : List Effect :=
  [Effect.emit ⟨player.id, EventName.PROGRESSBAR_REMOVE, [EmitArg.str uid]⟩]

/-- Play a non-positional sound: one emit carrying the audio name and the
volume, which defaults to 0.35 when unspecified. -/
def sound2D (p : Player) (audioName : String) (volume : Rat := 0.35) : List Effect :=
  [Effect.emit ⟨p.id, EventName.PLAYER_EMIT_SOUND_2D,
    [EmitArg.str audioName, EmitArg.rat volume]⟩]

/-- Play a sound at a target entity's location: one emit carrying the target
reference before the audio name, as in the source. -/
def sound3D (p : Player) (audioName : String) (target : Nat) : List Effect :=
  [Effect.emit ⟨p.id, EventName.PLAYER_EMIT_SOUND_3D,
    [EmitArg.entityRef target, EmitArg.str audioName]⟩]

/-- Play a frontend sound: one emit carrying the audio name and the reference. -/
def soundFrontend (p : Player) (audioName : String) (ref : String) : List Effect :=
  [Effect.emit ⟨p.id, EventName.PLAYER_EMIT_FRONTEND_SOUND,
    [EmitArg.str audioName, EmitArg.str ref]⟩]

/-- Force an uncancellable task timeline: one emit carrying the ordered list of
steps as a single payload.  Returns the post-call list (never mutated). -/
def taskTimeline (player : Player) (tasks : List TaskItem) : List TaskItem × List Effect :=
  (tasks, [Effect.emit ⟨player.id, EventName.PLAYER_EMIT_TASK_TIMELINE,
    [EmitArg.tasksArg tasks]⟩])

/-- Show an input menu: one emit forwarding the descriptor unchanged.  Returns
the post-call descriptor (never mutated). -/
def inputMenu (player : Player) (menu : InputMenu) : InputMenu × List Effect :=
  (menu, [Effect.emit ⟨player.id, EventName.INPUT_MENU_SET_MENU,
    [EmitArg.inputMenuArg menu]⟩])

/-- Create a spinner: one emit forwarding the descriptor unchanged.  Returns
the post-call descriptor (never mutated). -/
def createSpinner (player : Player) (spinner : ISpinner) : ISpinner × List Effect :=
  (spinner, [Effect.emit ⟨player.id, EventName.PLAYER_EMIT_SPINNER,
    [EmitArg.spinnerArg spinner]⟩])

/-- Clear the spinner: one bare emit with no payload. -/
def clearSpinner (player : Player) : List Effect :=
  [Effect.emit ⟨player.id, EventName.PLAYER_EMIT_SPINNER_CLEAR, []⟩]

/-- Create a full-screen error message: one emit forwarding the descriptor
unchanged.  Returns the post-call descriptor (never mutated). -/
def createErrorScreen (player : Player) (screen : IErrorScreen) : IErrorScreen × List Effect :=
  (screen, [Effect.emit ⟨player.id, EventName.PLAYER_EMIT_ERROR_SCREEN,
    [EmitArg.errorScreenArg screen]⟩])

/-- Clear the full-screen error message: one bare emit with no payload. -/
def clearErrorScreen (player : Player) : List Effect :=
  [Effect.emit ⟨player.id, EventName.PLAYER_EMIT_ERROR_SCREEN_CLEAR, []⟩]

/-- Replace the player's dead-state flag, keeping id and position. -/
def setDead (p : Player) (b : Bool) : Player :=
  { p with data := { isDead := b } }

theorem digitChar_toNat_of_lt : ∀ n, n < 10 → (Nat.digitChar n).toNat = 48 + n := by
  decide

theorem unnatL_append_singleton (l : List Char) (c : Char) :
    unnatL (l ++ [c]) = unnatL l * 10 + (c.toNat - 48) := by
  simp [unnatL, List.foldl_append]

theorem unnatL_natCharsAux : ∀ fuel n, n < 10 ^ fuel → unnatL (natCharsAux fuel n) = n := by
  intro fuel
  induction fuel with
  | zero =>
    intro n hn
    interval_cases n
    simp [natCharsAux, unnatL]
  | succ fuel ih =>
    intro n hn
    by_cases h : n < 10
    · simp [natCharsAux, h, unnatL]
      have := digitChar_toNat_of_lt n h
      omega
    · rw [natCharsAux, if_neg h, unnatL_append_singleton]
      have hdiv : n / 10 < 10 ^ fuel := by
        have : n < 10 ^ fuel * 10 := by
          rw [pow_succ] at hn
          exact hn
        exact Nat.div_lt_of_lt_mul (by omega)
      rw [ih (n / 10) hdiv]
      have := digitChar_toNat_of_lt (n % 10) (Nat.mod_lt n (by omega))
      omega

theorem unnatL_natStrL (n : Nat) : unnatL (natStrL n) = n := by
  apply unnatL_natCharsAux
  calc n < 10 ^ n := Nat.lt_pow_self (by norm_num) n
    _ ≤ 10 ^ (n + 1) := Nat.pow_le_pow_right (by norm_num) (Nat.le_succ n)

theorem natStrL_inj {a b : Nat} (h : natStrL a = natStrL b) : a = b := by
  have := congrArg unnatL h
  rwa [unnatL_natStrL, unnatL_natStrL] at this

theorem sha256Random_rand_inj {c : String} {r1 r2 : Nat}
    (h : sha256Random c r1 = sha256Random c r2) : r1 = r2 := by
  unfold sha256Random at h
  injection h with h
  have h2 := List.append_cancel_left h
  injection h2 with _ h3
  exact natStrL_inj h3

theorem countSends_map_emit {α : Type} (l : List α) (f : α → SendRec) :
    countSends (l.map (fun a => Effect.emit (f a))) = l.length := by
  induction l with
  | nil => rfl
  | cons a rest ih =>
    simp [countSends, sendsOf] at ih ⊢
    exact ih

/-- C1: for every player marked dead, the animation call performs no client
send and emits exactly one warning log, and the scenario call performs no send
and no log, for every dictionary/name/flags/duration and name/duration. -/
theorem dead_player_animation_scenario (p : Player) (h : p.data.isDead = true)
    (dict nm : String) (fl dur : Int) (sn : String) (sd : Int) :
    animation p dict nm fl dur =
      [Effect.logWarning ("[Athena] Cannot play " ++ dict ++ "@" ++ nm
        ++ " while player is dead.")] ∧
    countSends (animation p dict nm fl dur) = 0 ∧
    warnCount (animation p dict nm fl dur) = 1 ∧
    scenario p sn sd = [] ∧
    countSends (scenario p sn sd) = 0 ∧
    warnCount (scenario p sn sd) = 0 := by
  refine ⟨?_, ?_, ?_, ?_, ?_, ?_⟩ <;>
    simp [animation, scenario, h, countSends, warnCount, sendsOf]

theorem dead_player_animation_scenario_witness :
    ((⟨1, ⟨0, 0, 0⟩, ⟨true⟩⟩ : Player).data.isDead = true) ∧
    (animation ⟨1, ⟨0, 0, 0⟩, ⟨true⟩⟩ ("dict") ("anim") 1 5 =
      [Effect.logWarning ("[Athena] Cannot play " ++ "dict" ++ "@" ++ "anim"
        ++ " while player is dead.")] ∧
    countSends (animation ⟨1, ⟨0, 0, 0⟩, ⟨true⟩⟩ ("dict") ("anim") 1 5) = 0 ∧
    warnCount (animation ⟨1, ⟨0, 0, 0⟩, ⟨true⟩⟩ ("dict") ("anim") 1 5) = 1 ∧
    scenario ⟨1, ⟨0, 0, 0⟩, ⟨true⟩⟩ ("sit") 2 = [] ∧
    countSends (scenario ⟨1, ⟨0, 0, 0⟩, ⟨true⟩⟩ ("sit") 2) = 0 ∧
    warnCount (scenario ⟨1, ⟨0, 0, 0⟩, ⟨true⟩⟩ ("sit") 2) = 0) :=
  ⟨rfl, dead_player_animation_scenario ⟨1, ⟨0, 0, 0⟩, ⟨true⟩⟩ rfl
    ("dict") ("anim") 1 5 ("sit") 2⟩

/-- C8: for every non-dead player, animation forwards dictionary, name, flags
and duration unchanged in one send, with the duration defaulting to -1 (the
play-once sentinel) when unspecified. -/
theorem animation_alive_forwards (p : Player) (h : p.data.isDead = false)
    (dict nm : String) (fl : Int) :
    animation p dict nm fl =
      [Effect.emit ⟨p.id, EventName.PLAYER_EMIT_ANIMATION,
        [EmitArg.str dict, EmitArg.str nm, EmitArg.int fl, EmitArg.int (-1)]⟩] ∧
    (∀ dur : Int, animation p dict nm fl dur =
      [Effect.emit ⟨p.id, EventName.PLAYER_EMIT_ANIMATION,
        [EmitArg.str dict, EmitArg.str nm, EmitArg.int fl, EmitArg.int dur]⟩]) := by
  refine ⟨?_, ?_⟩ <;> simp [animation, h]

theorem animation_alive_forwards_witness :
    ((⟨3, ⟨0, 0, 0⟩, ⟨false⟩⟩ : Player).data.isDead = false) ∧
    (animation ⟨3, ⟨0, 0, 0⟩, ⟨false⟩⟩ ("dict") ("anim") 2 =
      [Effect.emit ⟨3, EventName.PLAYER_EMIT_ANIMATION,
        [EmitArg.str ("dict"), EmitArg.str ("anim"), EmitArg.int 2, EmitArg.int (-1)]⟩] ∧
    (∀ dur : Int, animation ⟨3, ⟨0, 0, 0⟩, ⟨false⟩⟩ ("dict") ("anim") 2 dur =
      [Effect.emit ⟨3, EventName.PLAYER_EMIT_ANIMATION,
        [EmitArg.str ("dict"), EmitArg.str ("anim"), EmitArg.int 2, EmitArg.int dur]⟩])) :=
  ⟨rfl, animation_alive_forwards ⟨3, ⟨0, 0, 0⟩, ⟨false⟩⟩ rfl ("dict") ("anim") 2⟩

/-- C7: every sound2D call with no volume argument sends with volume exactly
0.35, and a supplied volume is forwarded unchanged; exactly one send occurs. -/
theorem sound2D_default_volume (p : Player) (a : String) :
    sound2D p a =
      [Effect.emit ⟨p.id, EventName.PLAYER_EMIT_SOUND_2D,
        [EmitArg.str a, EmitArg.rat 0.35]⟩] ∧
    (∀ vol : Rat, sound2D p a vol =
      [Effect.emit ⟨p.id, EventName.PLAYER_EMIT_SOUND_2D,
        [EmitArg.str a, EmitArg.rat vol]⟩]) ∧
    countSends (sound2D p a) = 1 :=
  ⟨rfl, fun _ => rfl, rfl⟩

/-- C5: every particle call with the broadcast flag disabled (which is the
default) performs exactly one send, to the originating player only, whatever
the player registry holds. -/
theorem particle_no_broadcast_single_send (p : Player) (world : List Player) (pt : Particle) :
    (particle p world pt).2 =
      [Effect.emit ⟨p.id, EventName.PLAY_PARTICLE_EFFECT, [EmitArg.particleArg pt]⟩] ∧
    (particle p world pt false).2 =
      [Effect.emit ⟨p.id, EventName.PLAY_PARTICLE_EFFECT, [EmitArg.particleArg pt]⟩] ∧
    countSends (particle p world pt false).2 = 1 :=
  ⟨rfl, rfl, rfl⟩

/-- C4: every particle call with the broadcast flag enabled performs exactly
one send per player resolved by the 10-unit spatial query around the origin,
each carrying the identical particle payload. -/
theorem particle_broadcast_sends (p : Player) (world : List Player) (pt : Particle) :
    countSends (particle p world pt true).2 = (getClosestPlayers world p 10).length ∧
    (particle p world pt true).2 = (getClosestPlayers world p 10).map (fun q =>
      Effect.emit ⟨q.id, EventName.PLAY_PARTICLE_EFFECT, [EmitArg.particleArg pt]⟩) := by
  refine ⟨?_, rfl⟩
  simpa [particle] using countSends_map_emit (getClosestPlayers world p 10)
    (fun q => (⟨q.id, EventName.PLAY_PARTICLE_EFFECT, [EmitArg.particleArg pt]⟩ : SendRec))

/-- C6: every meta call performs no synchronous send; its single key/value send
is deferred through the next-tick scheduler, so in the tick-tagged view of a
call issued at tick t the metadata send carries tick t + 1, strictly greater
than t. -/
theorem meta_deferred_next_tick (p : Player) (key : String) (v : MetaValue) (t : Nat) :
    syncSends (meta p key v) = [] ∧
    taggedSends t (meta p key v) =
      [(t + 1, ⟨p.id, EventName.META_SET, [EmitArg.str key, EmitArg.metaValArg v]⟩)] ∧
    ∀ pr ∈ taggedSends t (meta p key v), t < pr.1 := by
  refine ⟨rfl, rfl, ?_⟩
  intro pr hpr
  simp [meta, taggedSends] at hpr
  subst hpr
  omega

theorem meta_deferred_next_tick_witness :
    3 < ((3 + 1, (⟨2, EventName.META_SET,
      [EmitArg.str ("health"), EmitArg.metaValArg (MetaValue.bool true)]⟩ : SendRec)) :
        Nat × SendRec).1 :=
  (meta_deferred_next_tick ⟨2, ⟨0, 0, 0⟩, ⟨false⟩⟩ ("health") (MetaValue.bool true) 3).2.2
    (3 + 1, ⟨2, EventName.META_SET,
      [EmitArg.str ("health"), EmitArg.metaValArg (MetaValue.bool true)]⟩)
    (by decide)

/-- C2 counterexample: a payload already carrying the empty-string identifier
is not preserved — the JavaScript falsy check `!progressbar.uid` treats it as
absent, a fresh identifier is generated, and the returned identifier differs
from the carried one. -/
theorem createProgressBar_empty_uid_not_preserved :
    (createProgressBar ⟨1, ⟨0, 0, 0⟩, ⟨false⟩⟩
      ⟨some (""), ("drink"), 5000, ⟨0, 0, 0⟩⟩ 0).2.1 ≠ "" ∧
    (createProgressBar ⟨1, ⟨0, 0, 0⟩, ⟨false⟩⟩
      ⟨some (""), ("drink"), 5000, ⟨0, 0, 0⟩⟩ 0).1.uid ≠ some ("") := by
  decide

/-- C2 amended: for every progress-bar payload carrying a non-empty
identifier, createProgressBar leaves the payload unchanged, forwards it with
that identifier, and returns that same identifier. -/
theorem createProgressBar_nonempty_uid_preserved (p : Player) (pb : ProgressBar)
    (u : String) (hu : pb.uid = some u) (hne : u ≠ "") (r : Nat) :
    (createProgressBar p pb r).1 = pb ∧
    (createProgressBar p pb r).2.1 = u ∧
    (createProgressBar p pb r).2.2 =
      [Effect.emit ⟨p.id, EventName.PROGRESSBAR_CREATE, [EmitArg.progressBarArg pb]⟩] := by
  have hf : strFalsy (some u) = false := by
    simp [strFalsy, hne]
  refine ⟨?_, ?_, ?_⟩ <;> simp [createProgressBar, hu, hf]

theorem createProgressBar_nonempty_uid_preserved_witness :
    ((⟨some ("abc"), ("drink"), 5000, ⟨0, 0, 0⟩⟩ : ProgressBar).uid = some ("abc")) ∧
    (("abc" : String) ≠ "") ∧
    ((createProgressBar ⟨1, ⟨0, 0, 0⟩, ⟨false⟩⟩
        ⟨some ("abc"), ("drink"), 5000, ⟨0, 0, 0⟩⟩ 7).1 =
      ⟨some ("abc"), ("drink"), 5000, ⟨0, 0, 0⟩⟩ ∧
    (createProgressBar ⟨1, ⟨0, 0, 0⟩, ⟨false⟩⟩
        ⟨some ("abc"), ("drink"), 5000, ⟨0, 0, 0⟩⟩ 7).2.1 = "abc" ∧
    (createProgressBar ⟨1, ⟨0, 0, 0⟩, ⟨false⟩⟩
        ⟨some ("abc"), ("drink"), 5000, ⟨0, 0, 0⟩⟩ 7).2.2 =
      [Effect.emit ⟨1, EventName.PROGRESSBAR_CREATE,
        [EmitArg.progressBarArg ⟨some ("abc"), ("drink"), 5000, ⟨0, 0, 0⟩⟩]⟩]) :=
  ⟨rfl, by decide, createProgressBar_nonempty_uid_preserved ⟨1, ⟨0, 0, 0⟩, ⟨false⟩⟩
    ⟨some ("abc"), ("drink"), 5000, ⟨0, 0, 0⟩⟩ ("abc") rfl (by decide) 7⟩

/-- C3: for every progress-bar payload lacking an identifier (falsy uid), two
calls with byte-identical payload content but distinct fresh random nonces
return two different generated identifiers. -/
theorem createProgressBar_fresh_ids_distinct (p1 p2 : Player) (pb : ProgressBar)
    (hf : strFalsy pb.uid = true) (r1 r2 : Nat) (hr : r1 ≠ r2) :
    (createProgressBar p1 pb r1).2.1 ≠ (createProgressBar p2 pb r2).2.1 := by
  simp only [createProgressBar, hf, if_pos, Option.getD_some]
  intro h
  exact hr (sha256Random_rand_inj h)

theorem createProgressBar_fresh_ids_distinct_witness :
    (strFalsy (⟨none, ("drink"), 5000, ⟨0, 0, 0⟩⟩ : ProgressBar).uid = true) ∧
    ((0 : Nat) ≠ 1) ∧
    (createProgressBar ⟨1, ⟨0, 0, 0⟩, ⟨false⟩⟩
        ⟨none, ("drink"), 5000, ⟨0, 0, 0⟩⟩ 0).2.1 ≠
      (createProgressBar ⟨1, ⟨0, 0, 0⟩, ⟨false⟩⟩
        ⟨none, ("drink"), 5000, ⟨0, 0, 0⟩⟩ 1).2.1 :=
  ⟨rfl, by decide, createProgressBar_fresh_ids_distinct ⟨1, ⟨0, 0, 0⟩, ⟨false⟩⟩
    ⟨1, ⟨0, 0, 0⟩, ⟨false⟩⟩ ⟨none, ("drink"), 5000, ⟨0, 0, 0⟩⟩ rfl 0 1 (by decide)⟩

/-- C9 counterexample: with the broadcast flag enabled and two players within
the 10-unit radius, the particle operation performs two sends, so "exactly one
send still occurs" fails for an operation other than animation/scenario. -/
theorem particle_broadcast_two_sends :
    countSends (particle ⟨1, ⟨0, 0, 0⟩, ⟨false⟩⟩
      [⟨1, ⟨0, 0, 0⟩, ⟨false⟩⟩, ⟨2, ⟨3, 0, 0⟩, ⟨false⟩⟩]
      ⟨("core"), ("fire"), 5, ⟨0, 0, 0⟩⟩ true).2 = 2 ∧
    countSends (particle ⟨1, ⟨0, 0, 0⟩, ⟨false⟩⟩
      [⟨1, ⟨0, 0, 0⟩, ⟨false⟩⟩, ⟨2, ⟨3, 0, 0⟩, ⟨false⟩⟩]
      ⟨("core"), ("fire"), 5, ⟨0, 0, 0⟩⟩ true).2 ≠ 1 := by
  refine ⟨?_, ?_⟩ <;> decide

/-- C9 amended: only animation and scenario check the player's dead state —
every other operation produces an output identical whether the dead flag is
set or not, and performs exactly one send, except that particle with the
broadcast flag enabled performs one send per player resolved by the 10-unit
spatial query (meta's single send being deferred to the next tick). -/
theorem emit_independent_of_dead_state (p : Player) (b : Bool) (world : List Player)
    (msg key aud ref uid : String) (v : MetaValue) (pt : Particle) (pb : ProgressBar)
    (r tgt : Nat) (vol : Rat) (bc : Bool) (ts : List TaskItem) (im : InputMenu)
    (sp : ISpinner) (es : IErrorScreen) :
    notification (setDead p b) msg = notification p msg ∧
    countSends (notification p msg) = 1 ∧
    message (setDead p b) msg = message p msg ∧
    countSends (message p msg) = 1 ∧
    sound2D (setDead p b) aud vol = sound2D p aud vol ∧
    countSends (sound2D p aud vol) = 1 ∧
    sound3D (setDead p b) aud tgt = sound3D p aud tgt ∧
    countSends (sound3D p aud tgt) = 1 ∧
    soundFrontend (setDead p b) aud ref = soundFrontend p aud ref ∧
    countSends (soundFrontend p aud ref) = 1 ∧
    particle (setDead p b) world pt bc = particle p world pt bc ∧
    countSends (particle p world pt false).2 = 1 ∧
    countSends (particle p world pt true).2 = (getClosestPlayers world p 10).length ∧
    createProgressBar (setDead p b) pb r = createProgressBar p pb r ∧
    countSends (createProgressBar p pb r).2.2 = 1 ∧
    removeProgressBar (setDead p b) uid = removeProgressBar p uid ∧
    countSends (removeProgressBar p uid) = 1 ∧
    createSpinner (setDead p b) sp = createSpinner p sp ∧
    countSends (createSpinner p sp).2 = 1 ∧
    clearSpinner (setDead p b) = clearSpinner p ∧
    countSends (clearSpinner p) = 1 ∧
    createErrorScreen (setDead p b) es = createErrorScreen p es ∧
    countSends (createErrorScreen p es).2 = 1 ∧
    clearErrorScreen (setDead p b) = clearErrorScreen p ∧
    countSends (clearErrorScreen p) = 1 ∧
    inputMenu (setDead p b) im = inputMenu p im ∧
    countSends (inputMenu p im).2 = 1 ∧
    taskTimeline (setDead p b) ts = taskTimeline p ts ∧
    countSends (taskTimeline p ts).2 = 1 ∧
    meta (setDead p b) key v = meta p key v ∧
    countSends (meta p key v) = 1 := by
  refine ⟨rfl, rfl, rfl, rfl, rfl, rfl, rfl, rfl, rfl, rfl, rfl, rfl, ?_, rfl, rfl,
    rfl, rfl, rfl, rfl, rfl, rfl, rfl, rfl, rfl, rfl, rfl, rfl, rfl, rfl, rfl, rfl⟩
  simpa [particle] using countSends_map_emit (getClosestPlayers world p 10)
    (fun q => (⟨q.id, EventName.PLAY_PARTICLE_EFFECT, [EmitArg.particleArg pt]⟩ : SendRec))

/-- C10: createProgressBar is the only operation that updates an argument —
when the input payload has no (falsy) uid, the generated identifier is written
onto the payload before the send, so after the call the payload's uid equals
the returned identifier, the forwarded payload is the updated one, and all
fields other than uid are unchanged; the other payload-taking operations
return their object arguments unmodified. -/
theorem createProgressBar_only_mutator (p : Player) (pb : ProgressBar) (r : Nat)
    (hf : strFalsy pb.uid = true) (world : List Player) (pt : Particle) (bc : Bool)
    (ts : List TaskItem) (im : InputMenu) (sp : ISpinner) (es : IErrorScreen) :
    (createProgressBar p pb r).1.uid = some ((createProgressBar p pb r).2.1) ∧
    (createProgressBar p pb r).1.text = pb.text ∧
    (createProgressBar p pb r).1.milliseconds = pb.milliseconds ∧
    (createProgressBar p pb r).1.position = pb.position ∧
    (createProgressBar p pb r).2.2 =
      [Effect.emit ⟨p.id, EventName.PROGRESSBAR_CREATE,
        [EmitArg.progressBarArg ((createProgressBar p pb r).1)]⟩] ∧
    (particle p world pt bc).1 = pt ∧
    (taskTimeline p ts).1 = ts ∧
    (inputMenu p im).1 = im ∧
    (createSpinner p sp).1 = sp ∧
    (createErrorScreen p es).1 = es := by
  refine ⟨?_, ?_, ?_, ?_, rfl, ?_, rfl, rfl, rfl, rfl⟩
  · simp [createProgressBar, hf]
  · simp [createProgressBar, hf]
  · simp [createProgressBar, hf]
  · simp [createProgressBar, hf]
  · cases bc <;> rfl

theorem createProgressBar_only_mutator_witness :
    (strFalsy (⟨none, ("drink"), 5000, ⟨0, 0, 0⟩⟩ : ProgressBar).uid = true) ∧
    (createProgressBar ⟨1, ⟨0, 0, 0⟩, ⟨false⟩⟩
        ⟨none, ("drink"), 5000, ⟨0, 0, 0⟩⟩ 3).1.uid =
      some ((createProgressBar ⟨1, ⟨0, 0, 0⟩, ⟨false⟩⟩
        ⟨none, ("drink"), 5000, ⟨0, 0, 0⟩⟩ 3).2.1) :=
  ⟨rfl, (createProgressBar_only_mutator ⟨1, ⟨0, 0, 0⟩, ⟨false⟩⟩
    ⟨none, ("drink"), 5000, ⟨0, 0, 0⟩⟩ 3 rfl [] ⟨("a"), ("b"), 0, ⟨0, 0, 0⟩⟩ false []
    ⟨("t")⟩ ⟨0, ("s")⟩ ⟨("e"), ("x"), 0⟩).1⟩
